import Mathlib

/-
Verification of the Paxos simulation core (`paxos_analysis/paxos_simulation.py`)
against its natural-language specification.  The Python classes are shallowly
embedded as pure Lean functions: each handler becomes a function from the
node's state (plus the wall-clock instant at which it runs, and the inputs the
source draws from the environment, such as random samples) to the new state
together with the visible effects (messages sent, timers armed, events
emitted).  Wall-clock instants are abstracted as naturals; probabilities,
random rolls and delays are rationals.
-/

namespace Paxos

/-- Opaque value type: values in the simulation are Python strings. -/
abbrev Val := String

/-- ProposalID from paxos.essential: a (number, uid) pair, compared
lexicographically (Python namedtuple/tuple comparison). -/
structure ProposalID where
  number : Nat
  uid : String
deriving DecidableEq

/-- Python tuple comparison `a < b` on ProposalID: number first, uid tiebreak. -/
def pidLt (a b : ProposalID) : Bool :=
  decide (a.number < b.number) || (decide (a.number = b.number) && decide (a.uid < b.uid))

/-- NetworkMessage: msg_type, sender, receiver, proposal_id, previous_id,
accepted_value, dropped. -/
structure NetworkMessage where
  msgType : String
  sender : String
  receiver : String
  proposalId : ProposalID
  previousId : Option ProposalID
  acceptedValue : Option Val
  dropped : Bool
deriving DecidableEq

/-- Association-list lookup, modelling Python dict `d[k]` / `k in d`. -/
def alistLookup {κ α : Type} [DecidableEq κ] : List (κ × α) → κ → Option α
  | [], _ => none
  | (k', v) :: rest, k => if k' = k then some v else alistLookup rest k

/-- Association-list assignment, modelling Python dict `d[k] = v`. -/
def alistSet {κ α : Type} [DecidableEq κ] : List (κ × α) → κ → α → List (κ × α)
  | [], k, v => [(k, v)]
  | (k', v') :: rest, k, v =>
      if k' = k then (k, v) :: rest else (k', v') :: alistSet rest k v

/-- Association-list deletion, modelling Python dict `del d[k]`. -/
def alistErase {κ α : Type} [DecidableEq κ] : List (κ × α) → κ → List (κ × α)
  | [], _ => []
  | (k', v) :: rest, k => if k' = k then alistErase rest k else (k', v) :: alistErase rest k

/-- Python `set.add`: insert if absent (list kept duplicate-free). -/
def setAdd {α : Type} [DecidableEq α] (l : List α) (x : α) : List α :=
  if x ∈ l then l else l ++ [x]

/-! ## Learner (`PaxosLearner`) -/

/-- One entry of the learner's `pending_accepted` dict:
`{'count': .., 'value': .., 'received': set()}`. -/
structure LearnerTally where
  count : Nat
  value : Option Val
  received : List String
deriving DecidableEq

/-- PaxosLearner state relevant to its tally logic. -/
structure LearnerState where
  quorumSize : Nat
  pendingAccepted : List (ProposalID × LearnerTally)
deriving DecidableEq

/-- PaxosLearner.handle_message.  For an `accepted` message: find or create the
tally for the proposal id, increment `count` unconditionally, add the sender to
`received`, and when `count ≥ quorum_size` emit an `on_resolution` event with
the triggering message's value and delete the tally.  (The call to the base
class `recv_accepted` maintains library-internal state and is not part of the
tally logic modelled here.)  Any other message type is ignored. -/
def learnerHandleMessage (st : LearnerState) (msg : NetworkMessage) :
    LearnerState × List (ProposalID × Option Val) :=
  if msg.msgType = "accepted" then
    let tally :=
      match alistLookup st.pendingAccepted msg.proposalId with
      | some t => t
      | none => ⟨0, msg.acceptedValue, []⟩
    let tally' : LearnerTally :=
      ⟨tally.count + 1, tally.value, setAdd tally.received msg.sender⟩
    if tally'.count ≥ st.quorumSize then
      (⟨st.quorumSize, alistErase st.pendingAccepted msg.proposalId⟩,
       [(msg.proposalId, msg.acceptedValue)])
    else
      (⟨st.quorumSize, alistSet st.pendingAccepted msg.proposalId tally'⟩, [])
  else (st, [])

/-- Learner with quorum size 2 and no tallies yet. -/
def c1Learner : LearnerState := ⟨2, []⟩

/-- An `accepted` notification from acceptor A0 for proposal (1, P0). -/
def c1Msg : NetworkMessage :=
  ⟨"accepted", "A0", "L0", ⟨1, "P0"⟩, none, some "v", false⟩

/-- Claim C1 (code bug): delivering the very same `accepted` notification from
sender A0 twice to a learner with `quorum_size = 2` makes the tally reach
quorum and fire a resolution, although only one distinct acceptor was ever
tallied: the learner does not ignore an `accepted` from a sender it has already
counted, and its quorum test uses the raw message count, not the number of
distinct acceptors. -/
theorem C1_learner_double_count :
    (learnerHandleMessage c1Learner c1Msg).2 = [] ∧
    (alistLookup (learnerHandleMessage c1Learner c1Msg).1.pendingAccepted
        ⟨1, "P0"⟩).map LearnerTally.received = some ["A0"] ∧
    (learnerHandleMessage (learnerHandleMessage c1Learner c1Msg).1 c1Msg).2 =
      [(⟨1, "P0"⟩, some "v")] := by
  decide

/-! ## Network (`NetworkSimulator`) -/

/-- The unique identifier `f"{sender}-{receiver}-{msg_type}-{proposal_id}-{retry_count}"`
minted by `send_message`, modelled as the tuple of its components. -/
structure MsgToken where
  sender : String
  receiver : String
  msgType : String
  proposalId : ProposalID
  retryCount : Nat
deriving DecidableEq

/-- Token of a message at a given retry count. -/
def mkToken (msg : NetworkMessage) (retryCount : Nat) : MsgToken :=
  ⟨msg.sender, msg.receiver, msg.msgType, msg.proposalId, retryCount⟩

/-- NetworkSimulator state.  `nodes` maps a registered node id to that node's
`running` flag (false once the node has crashed). -/
structure NetState where
  nodes : List (String × Bool)
  failureRate : Rat
  running : Bool
  messageCount : Nat
  droppedMessages : Nat
  maxRetries : Nat
  activeMessages : List MsgToken
  totalRetries : Nat
deriving DecidableEq

/-- Externally visible outcome of one `send_message` call. -/
inductive SendAction
  | skippedNotRunning
  | skippedDuplicate
  | droppedNoRetry
  | droppedRetryScheduled (delay : Rat) (nextAttempt : Nat)
  | droppedPermanent
  | deliveryScheduled (delay : Rat)
deriving DecidableEq

/-- NetworkSimulator.send_message.  `dropRoll` is the `random.random()` sample
deciding the drop, `delaySample` the uniform sample from `delay_range` used on
the non-drop path.  On a drop with `failure_rate < 1.0` and
`retry_count < max_retries`, a retry is scheduled after
`min(0.5 * 2 ** retry_count, 5.0)` seconds with attempt `retry_count + 1`. -/
def sendMessage (st : NetState) (msg : NetworkMessage) (retryCount : Nat)
    (dropRoll delaySample : Rat) : NetState × SendAction :=
  if st.running = false then (st, .skippedNotRunning)
  else
    let tok := mkToken msg retryCount
    if tok ∈ st.activeMessages then (st, .skippedDuplicate)
    else
      let st1 := { st with activeMessages := st.activeMessages ++ [tok],
                           messageCount := st.messageCount + 1 }
      if 0 < st1.failureRate ∧ dropRoll < st1.failureRate then
        let st2 := { st1 with droppedMessages := st1.droppedMessages + 1 }
        if 1 ≤ st2.failureRate then
          ({ st2 with activeMessages := st2.activeMessages.filter (fun t => decide (t ≠ tok)) },
           .droppedNoRetry)
        else if retryCount < st2.maxRetries then
          (st2, .droppedRetryScheduled (min ((1/2 : Rat) * 2 ^ retryCount) 5) (retryCount + 1))
        else
          ({ st2 with activeMessages := st2.activeMessages.filter (fun t => decide (t ≠ tok)) },
           .droppedPermanent)
      else
        (st1, .deliveryScheduled delaySample)

/-- Externally visible outcome of one `_retry_message` call. -/
inductive RetryAction
  | stoppedOrExhausted
  | alreadyDelivered
  | redropScheduled (delay : Rat) (nextAttempt : Nat)
  | handlerInvoked
  | receiverUnavailable
deriving DecidableEq

/-- NetworkSimulator._retry_message.  If the simulator has stopped or
`attempt ≥ 3`, drop the token and stop.  If the token is no longer active the
message was already delivered.  On a re-drop (`dropRoll < failure_rate`) the
next attempt is scheduled after `min(0.1 * 2 ** attempt, 1.0)` seconds and the
token stays active.  Otherwise the receiver's handler runs iff the receiver is
registered and running, and the token is removed. -/
def retryMessage (st : NetState) (tok : MsgToken) (msg : NetworkMessage)
    (attempt : Nat) (dropRoll : Rat) : NetState × RetryAction :=
  if st.running = false ∨ 3 ≤ attempt then
    ({ st with activeMessages := st.activeMessages.filter (fun t => decide (t ≠ tok)) },
     .stoppedOrExhausted)
  else if tok ∉ st.activeMessages then (st, .alreadyDelivered)
  else if dropRoll < st.failureRate then
    ({ st with totalRetries := st.totalRetries + 1,
               droppedMessages := st.droppedMessages + 1 },
     .redropScheduled (min ((1/10 : Rat) * 2 ^ attempt) 1) (attempt + 1))
  else
    let act := match alistLookup st.nodes msg.receiver with
               | some true => RetryAction.handlerInvoked
               | _ => RetryAction.receiverUnavailable
    ({ st with activeMessages := st.activeMessages.filter (fun t => decide (t ≠ tok)) }, act)

/-- NetworkSimulator._deliver_message: invoke the receiver's handler iff the
receiver is registered and its `running` flag is set; in all cases remove the
token from the active set afterwards (the `finally` block). -/
def deliverMessage (st : NetState) (msg : NetworkMessage) (tok : MsgToken) :
    NetState × Bool :=
  let invoked := match alistLookup st.nodes msg.receiver with
                 | some r => r
                 | none => false
  ({ st with activeMessages := st.activeMessages.filter (fun t => decide (t ≠ tok)) },
   invoked)

/-- NetworkSimulator.stop: clear `running` and the active token set. -/
def netStop (st : NetState) : NetState :=
  { st with running := false, activeMessages := [] }

/-- A promise message from A0 back to P0, and its send-time token. -/
def c5Msg : NetworkMessage := ⟨"promise", "A0", "P0", ⟨2, "P0"⟩, none, none, false⟩

/-- Token minted when `c5Msg` was first sent (retry count 0). -/
def c5Tok : MsgToken := mkToken c5Msg 0

/-- Network state in the middle of retrying `c5Msg`: running, drop rate 1/2,
the message's token still active. -/
def c5St : NetState := ⟨[("P0", true)], 1/2, true, 1, 1, 3, [c5Tok], 0⟩

/-- Claim C5 counterexample: at retry attempt k = 1 of a dropped message, the
retry handler schedules the next resend after `min(0.1 * 2^1, 1.0) = 0.2`
seconds, not after `min(0.5 * 2^1, 5.0) = 1.0` seconds as the claim states for
every retry attempt. -/
theorem C5_backoff_counterexample :
    (retryMessage c5St c5Tok c5Msg 1 0).2 = .redropScheduled (1/5) 2 ∧
    (1/5 : Rat) ≠ min ((1/2 : Rat) * 2 ^ 1) 5 := by
  constructor
  · simp [retryMessage, c5St, c5Tok, c5Msg, mkToken]
    norm_num [min_def]
  · norm_num [min_def]

/-- Claim C5 (amended): a message dropped at send time with retry count k < 3
and drop rate in (0,1) has its first resend scheduled after
`min(0.5 * 2^k, 5.0)` seconds; a re-drop inside the retry handler at attempt
k < 3 schedules the next attempt after `min(0.1 * 2^k, 1.0)` seconds; and no
retry is scheduled when the drop probability is ≥ 1.0 (provided the proposer
calls `send_message` while the network is running). -/
theorem C5_backoff :
    (∀ st msg (rc : Nat) (roll delay : Rat),
      st.running = true →
      mkToken msg rc ∉ st.activeMessages →
      0 < st.failureRate → roll < st.failureRate → st.failureRate < 1 →
      rc < st.maxRetries →
      (sendMessage st msg rc roll delay).2 =
        .droppedRetryScheduled (min ((1/2 : Rat) * 2 ^ rc) 5) (rc + 1)) ∧
    (∀ st tok msg (k : Nat) (roll : Rat),
      st.running = true → k < 3 → tok ∈ st.activeMessages →
      roll < st.failureRate →
      (retryMessage st tok msg k roll).2 =
        .redropScheduled (min ((1/10 : Rat) * 2 ^ k) 1) (k + 1)) ∧
    (∀ st msg (rc : Nat) (roll delay : Rat),
      st.running = true →
      mkToken msg rc ∉ st.activeMessages →
      0 < st.failureRate → roll < st.failureRate → 1 ≤ st.failureRate →
      (sendMessage st msg rc roll delay).2 = .droppedNoRetry) := by
  refine ⟨?_, ?_, ?_⟩
  · intro st msg rc roll delay hrun hnotact hpos hroll hlt hrc
    simp [sendMessage, hrun, hnotact, hpos, hroll, hrc, not_le.mpr hlt]
  · intro st tok msg k roll hrun hk hact hroll
    simp [retryMessage, hrun, hact, hroll, Nat.not_le.mpr hk]
  · intro st msg rc roll delay hrun hnotact hpos hroll hge
    simp [sendMessage, hrun, hnotact, hpos, hroll, hge]

/-- Fresh network state with drop rate 1/2 and no in-flight messages. -/
def c5StSend : NetState := ⟨[("P0", true)], 1/2, true, 0, 0, 3, [], 0⟩

/-- Fresh network state with drop rate 1 (every message dropped). -/
def c5StFull : NetState := ⟨[("P0", true)], 1, true, 0, 0, 3, [], 0⟩

/-- Witness for C5_backoff at concrete inputs: drop rate 1/2 with a fresh
message (send path, k = 0), the retry state `c5St` at attempt 1, and drop rate
1 (no retry). -/
theorem C5_backoff_witness :
    (sendMessage c5StSend c5Msg 0 0 0).2 =
      .droppedRetryScheduled (min ((1/2 : Rat) * 2 ^ 0) 5) 1 ∧
    (retryMessage c5St c5Tok c5Msg 1 0).2 =
      .redropScheduled (min ((1/10 : Rat) * 2 ^ 1) 1) 2 ∧
    (sendMessage c5StFull c5Msg 0 0 0).2 = .droppedNoRetry := by
  refine ⟨?_, ?_, ?_⟩
  · exact C5_backoff.1 c5StSend c5Msg 0 0 0 rfl (by simp [c5StSend, mkToken])
      (by norm_num [c5StSend]) (by norm_num [c5StSend]) (by norm_num [c5StSend])
      (by norm_num [c5StSend])
  · exact C5_backoff.2.1 c5St c5Tok c5Msg 1 0 rfl (by norm_num)
      (by simp [c5St]) (by norm_num [c5St])
  · exact C5_backoff.2.2 c5StFull c5Msg 0 0 0 rfl (by simp [c5StFull, mkToken])
      (by norm_num [c5StFull]) (by norm_num [c5StFull]) (by norm_num [c5StFull])

/-- Message to registered, running receiver A0, with its token. -/
def c6Msg : NetworkMessage := ⟨"prepare", "P0", "A0", ⟨2, "P0"⟩, none, none, false⟩

/-- Token of `c6Msg`. -/
def c6Tok : MsgToken := mkToken c6Msg 0

/-- Network state that has been stopped (`running = false`) while `c6Msg` is
still in flight and its receiver is registered and alive. -/
def c6St : NetState := ⟨[("A0", true)], 0, false, 1, 0, 3, [c6Tok], 0⟩

/-- Claim C6 counterexample: a delivery performed after the network has
stopped (`running = false`) still invokes the receiver's handler, so the
handler is not invoked "only if the network is still running":
`_deliver_message` never consults the network's running flag. -/
theorem C6_delivery_counterexample :
    (deliverMessage c6St c6Msg c6Tok).2 = true ∧ c6St.running = false := by
  decide

/-- Claim C6 (amended): delivery invokes the receiver's handler iff the
receiver is still registered in the node map and its run flag is set — the
network's own running flag is not consulted — and the message's token is
removed from the active set after the delivery attempt regardless of whether
the handler was invoked. -/
theorem C6_delivery :
    ∀ (st : NetState) (msg : NetworkMessage) (tok : MsgToken),
      ((deliverMessage st msg tok).2 = true ↔
        alistLookup st.nodes msg.receiver = some true) ∧
      tok ∉ (deliverMessage st msg tok).1.activeMessages := by
  intro st msg tok
  constructor
  · cases h : alistLookup st.nodes msg.receiver with
    | none => simp [deliverMessage, h]
    | some r => cases r <;> simp [deliverMessage, h]
  · simp [deliverMessage, List.mem_filter]

/-! ## Proposer (`PaxosProposer`) -/

/-- The proposer's `current_phase` values `'prepare'` and `'accept'`. -/
inductive Phase
  | prepare
  | accept
deriving DecidableEq

/-- One entry of the proposer's `pending_promises` dict:
`{'count', 'start_time', 'received', 'value', 'retry_count'}`.  `value` is the
highest-id prior accepted `(previous_id, accepted_value)` pair reported so far. -/
structure PromTally where
  count : Nat
  startTime : Nat
  received : List String
  value : Option (ProposalID × Val)
  retryCount : Nat
deriving DecidableEq

/-- One entry of the proposer's `pending_accepts` dict. -/
structure AccTally where
  count : Nat
  startTime : Nat
  received : List String
  value : Option Val
  retryCount : Nat
deriving DecidableEq

/-- The `f"{msg.sender}-{msg.msg_type}-{msg.proposal_id}"` key used by the
proposer's duplicate filter, modelled as the tuple of its components. -/
abbrev MsgKey := String × String × ProposalID

/-- PaxosProposer state.  `promisesRcvd`, `lastAcceptedId` and `proposedValue`
are the base-class fields the proposer maintains alongside its own
`pendingPromises` tallies; `proposalValue` is the value given by
`set_proposal`. -/
structure ProposerState where
  nodeId : String
  quorumSize : Nat
  running : Bool
  nextProposalNumber : Nat
  pendingPromises : List (ProposalID × PromTally)
  pendingAccepts : List (ProposalID × AccTally)
  currentPhase : Option Phase
  proposalValue : Option Val
  processedMessages : List MsgKey
  quorumReached : Bool
  proposalId : Option ProposalID
  consensusTime : Option Nat
  startTime : Option Nat
  rounds : Nat
  promisesRcvd : List String
  lastAcceptedId : Option ProposalID
  proposedValue : Option Val
deriving DecidableEq

/-- A timer armed by the proposer (`threading.Timer(self.timeout, ...)`). -/
inductive TimerKind
  | promiseTimer (id : ProposalID)
  | acceptTimer (id : ProposalID)
deriving DecidableEq

/-- Visible effects of one proposer operation: messages handed to the network
and timers armed. -/
structure Effects where
  sent : List NetworkMessage
  timers : List TimerKind
deriving DecidableEq

/-- No effects. -/
def noEff : Effects := ⟨[], []⟩

/-- A freshly constructed PaxosProposer. -/
def initProposer (nodeId : String) (quorumSize : Nat) : ProposerState :=
  ⟨nodeId, quorumSize, true, 1, [], [], none, none, [], false, none, none, none, 0,
   [], none, none⟩

/-- PaxosProposer.set_proposal. -/
def setProposal (v : Val) (s : ProposerState) : ProposerState :=
  { s with proposalValue := some v }

/-- PaxosProposer.prepare.  Increment the round counter and the proposal
number, mint the new proposal id, set the phase, reset the base-class promise
set, record `start_time` only if not yet set, send `prepare` to every
registered acceptor, create the pending-promise tally and arm the promise
timer. -/
def prepare (acceptors : List String) (now : Nat) (s : ProposerState) :
    ProposerState × Effects :=
  if s.running = false then (s, noEff)
  else
    let n := s.nextProposalNumber + 1
    let pid : ProposalID := ⟨n, s.nodeId⟩
    let s1 := { s with rounds := s.rounds + 1,
                       currentPhase := some Phase.prepare,
                       quorumReached := false,
                       nextProposalNumber := n,
                       proposalId := some pid,
                       startTime := match s.startTime with
                                    | none => some now
                                    | some t => some t,
                       promisesRcvd := [],
                       lastAcceptedId := none }
    let sent := acceptors.map (fun a =>
      (⟨"prepare", s.nodeId, a, pid, none, none, false⟩ : NetworkMessage))
    let s2 := { s1 with pendingPromises := alistSet s1.pendingPromises pid ⟨0, now, [], none, 0⟩ }
    (s2, ⟨sent, [TimerKind.promiseTimer pid]⟩)

/-- PaxosProposer._check_promise_timeout.  If the tally for `id` still exists
and holds fewer than `quorum_size` promises, increment its retry counter;
below 3, bump the proposal number, clear the phase and re-enter `prepare`
(which bumps the number again); otherwise delete the tally and clear the
phase.  (The source also computes an unused fresh ProposalID in the retry
branch.) -/
def checkPromiseTimeout (acceptors : List String) (now : Nat) (id : ProposalID)
    (s : ProposerState) : ProposerState × Effects :=
  match alistLookup s.pendingPromises id with
  | none => (s, noEff)
  | some tally =>
      if tally.count < s.quorumSize then
        let tally' : PromTally := { tally with retryCount := tally.retryCount + 1 }
        let s1 := { s with pendingPromises := alistSet s.pendingPromises id tally' }
        if tally'.retryCount < 3 then
          let s2 := { s1 with nextProposalNumber := s1.nextProposalNumber + 1,
                              currentPhase := none }
          prepare acceptors now s2
        else
          ({ s1 with pendingPromises := alistErase s1.pendingPromises id,
                     currentPhase := none }, noEff)
      else (s, noEff)

/-- PaxosProposer.send_accept.  Does nothing unless the node is running and
`quorum_reached` is set; otherwise enters the accept phase, sends
`accept(id, value)` to every registered acceptor, re-creates the
pending-accepts tally for `id` (count 0, empty received set, retry count 0)
and arms the accept timer. -/
def sendAccept (acceptors : List String) (now : Nat) (id : ProposalID)
    (value : Option Val) (s : ProposerState) : ProposerState × Effects :=
  if s.running = false then (s, noEff)
  else if s.quorumReached = false then (s, noEff)
  else
    let s1 := { s with currentPhase := some Phase.accept }
    let sent := acceptors.map (fun a =>
      (⟨"accept", s.nodeId, a, id, none, value, false⟩ : NetworkMessage))
    let s2 := { s1 with pendingAccepts := alistSet s1.pendingAccepts id ⟨0, now, [], value, 0⟩ }
    (s2, ⟨sent, [TimerKind.acceptTimer id]⟩)

/-- PaxosProposer._check_accept_timeout.  If the tally for `id` still exists
with fewer than `quorum_size` accepteds, increment its retry counter; below 3,
increment the round counter and re-send accept with the same id and value;
otherwise clear the phase, bump the proposal number and restart from
`prepare`. -/
def checkAcceptTimeout (acceptors : List String) (now : Nat) (id : ProposalID)
    (s : ProposerState) : ProposerState × Effects :=
  match alistLookup s.pendingAccepts id with
  | none => (s, noEff)
  | some t =>
      if t.count < s.quorumSize then
        let t' : AccTally := { t with retryCount := t.retryCount + 1 }
        let s1 := { s with pendingAccepts := alistSet s.pendingAccepts id t' }
        if t'.retryCount < 3 then
          let s2 := { s1 with rounds := s1.rounds + 1 }
          sendAccept acceptors now id t'.value s2
        else
          let s2 := { s1 with currentPhase := none,
                              nextProposalNumber := s1.nextProposalNumber + 1 }
          prepare acceptors now s2
      else (s, noEff)

/-- Update of the tally's `value` field in `handle_promise`: when the promise
carries an accepted value, keep the pair with the strictly highest prior id.
(Acceptors set `previous_id` and `accepted_value` together, so a promise with
a value but no prior id does not arise; the source would fault on it.) -/
def trackPrior (tv : Option (ProposalID × Val)) (msg : NetworkMessage) :
    Option (ProposalID × Val) :=
  match msg.acceptedValue with
  | none => tv
  | some v =>
      match msg.previousId with
      | none => tv
      | some p =>
          match tv with
          | none => some (p, v)
          | some (p0, v0) => if pidLt p0 p then some (p, v) else some (p0, v0)

/-- Base-class state update in `handle_promise`: if the promise reports a
prior accepted id higher than any seen, record it, and record its value as the
proposed value. -/
def updateLastAccepted (msg : NetworkMessage) (s : ProposerState) : ProposerState :=
  match msg.previousId with
  | none => s
  | some p =>
      if (match s.lastAcceptedId with
          | none => true
          | some l => pidLt l p) = true then
        match msg.acceptedValue with
        | some v => { s with lastAcceptedId := some p, proposedValue := some v }
        | none => { s with lastAcceptedId := some p }
      else s

/-- PaxosProposer.handle_promise.  Acts only when the message's proposal id
has a pending-promise tally and the phase is `prepare`; ignores senders
already in that tally's received set; otherwise increments the tally, tracks
the highest prior accepted pair, updates the base-class state, adds the sender
to `promises_rcvd`, and on reaching `quorum_size` distinct promisers (with
`quorum_reached` not yet set) marks the quorum, chooses the tally's prior
value if any else its own `proposal_value`, calls `send_accept` for the
triggering message's proposal id and deletes that tally. -/
def handlePromise (acceptors : List String) (now : Nat) (msg : NetworkMessage)
    (s : ProposerState) : ProposerState × Effects :=
  match alistLookup s.pendingPromises msg.proposalId, s.currentPhase with
  | some tally, some Phase.prepare =>
      if msg.sender ∈ tally.received then (s, noEff)
      else
        let t2 : PromTally := ⟨tally.count + 1, tally.startTime,
                               setAdd tally.received msg.sender,
                               trackPrior tally.value msg, tally.retryCount⟩
        let s1 := { s with pendingPromises := alistSet s.pendingPromises msg.proposalId t2 }
        let s2 := updateLastAccepted msg s1
        let s3 := { s2 with promisesRcvd := setAdd s2.promisesRcvd msg.sender }
        if s3.quorumSize ≤ s3.promisesRcvd.length ∧ s3.quorumReached = false then
          let s4 := { s3 with quorumReached := true }
          let value := match t2.value with
                       | some pv => some pv.2
                       | none => s4.proposalValue
          let r := sendAccept acceptors now msg.proposalId value s4
          ({ r.1 with pendingPromises := alistErase r.1.pendingPromises msg.proposalId }, r.2)
        else (s3, noEff)
  | _, _ => (s, noEff)

/-- PaxosProposer.handle_accepted.  Acts only when the message's proposal id
has a pending-accepts tally and the phase is `accept`; ignores senders already
counted; otherwise increments the tally, and when the tally's count reaches
`quorum_size`, records the consensus time if not already recorded, deletes the
tally and clears the phase. -/
def handleAccepted (now : Nat) (msg : NetworkMessage) (s : ProposerState) :
    ProposerState × Effects :=
  match alistLookup s.pendingAccepts msg.proposalId, s.currentPhase with
  | some t, some Phase.accept =>
      if msg.sender ∈ t.received then (s, noEff)
      else
        let t' : AccTally := ⟨t.count + 1, t.startTime, setAdd t.received msg.sender,
                              t.value, t.retryCount⟩
        let s1 := { s with pendingAccepts := alistSet s.pendingAccepts msg.proposalId t' }
        if s1.quorumSize ≤ t'.count then
          let s2 := match s1.consensusTime with
                    | none => { s1 with consensusTime := some now }
                    | some _ => s1
          ({ s2 with pendingAccepts := alistErase s2.pendingAccepts msg.proposalId,
                     currentPhase := none }, noEff)
        else (s1, noEff)
  | _, _ => (s, noEff)

/-- Duplicate-filter key of a message at the proposer. -/
def msgKey (msg : NetworkMessage) : MsgKey := (msg.sender, msg.msgType, msg.proposalId)

/-- One iteration of PaxosProposer._process_messages on a dequeued message:
skip it (returning `true`) if its key was already processed; otherwise record
the key and dispatch on the message type (`promise` / `accepted`; other types
are recorded but ignored). -/
def processMessage (acceptors : List String) (now : Nat) (msg : NetworkMessage)
    (s : ProposerState) : ProposerState × Effects × Bool :=
  if msgKey msg ∈ s.processedMessages then (s, noEff, true)
  else
    let s1 := { s with processedMessages := s.processedMessages ++ [msgKey msg] }
    if msg.msgType = "promise" then
      let r := handlePromise acceptors now msg s1
      (r.1, r.2, false)
    else if msg.msgType = "accepted" then
      let r := handleAccepted now msg s1
      (r.1, r.2, false)
    else (s1, noEff, false)

/-- An event acting on one proposer: an inbound message being dequeued and
processed, a timer firing, or a driver call. -/
inductive PEvent
  | deliver (now : Nat) (msg : NetworkMessage)
  | promiseTimeout (now : Nat) (id : ProposalID)
  | acceptTimeout (now : Nat) (id : ProposalID)
  | callPrepare (now : Nat)
  | callSetProposal (v : Val)
deriving DecidableEq

/-- Apply one event to the proposer.  Messages are only processed while the
node is running (the processing loop exits when `running` is cleared). -/
def step (acceptors : List String) (e : PEvent) (s : ProposerState) :
    ProposerState × Effects :=
  match e with
  | .deliver now msg =>
      if s.running = true then
        let r := processMessage acceptors now msg s
        (r.1, r.2.1)
      else (s, noEff)
  | .promiseTimeout now id => checkPromiseTimeout acceptors now id s
  | .acceptTimeout now id => checkAcceptTimeout acceptors now id s
  | .callPrepare now => prepare acceptors now s
  | .callSetProposal v => (setProposal v s, noEff)

/-- Fold a list of events over the proposer's state. -/
def runTrace (acceptors : List String) (es : List PEvent) (s : ProposerState) :
    ProposerState :=
  es.foldl (fun st e => (step acceptors e st).1) s

/-- Process a list of timed inbound messages, collecting the keys of the
messages that were actually dispatched (not skipped by the duplicate filter). -/
def processList (acceptors : List String) :
    List (Nat × NetworkMessage) → ProposerState → ProposerState × List MsgKey
  | [], s => (s, [])
  | (now, m) :: ms, s =>
      let r := processMessage acceptors now m s
      let rest := processList acceptors ms r.1
      (rest.1, if r.2.2 = true then rest.2 else msgKey m :: rest.2)

/-! ## Association-list and frame lemmas -/

/-- Looking up a key just assigned returns the assigned value. -/
lemma alistLookup_alistSet_self {κ α : Type} [DecidableEq κ]
    (l : List (κ × α)) (k : κ) (v : α) : alistLookup (alistSet l k v) k = some v := by
  induction l with
  | nil => simp [alistSet, alistLookup]
  | cons p rest ih =>
      obtain ⟨k', v'⟩ := p
      by_cases h : k' = k
      · simp [alistSet, alistLookup, h]
      · simp [alistSet, alistLookup, h, ih]

/-- Looking up a key just deleted returns nothing. -/
lemma alistLookup_alistErase_self {κ α : Type} [DecidableEq κ]
    (l : List (κ × α)) (k : κ) : alistLookup (alistErase l k) k = none := by
  induction l with
  | nil => simp [alistErase, alistLookup]
  | cons p rest ih =>
      obtain ⟨k', v'⟩ := p
      by_cases h : k' = k
      · simpa [alistErase, h] using ih
      · simp [alistErase, alistLookup, h, ih]

/-- setProposal leaves every field except `proposalValue` unchanged; in
particular the duplicate filter and the start time. -/
lemma setProposal_frame (v : Val) (s : ProposerState) :
    (setProposal v s).processedMessages = s.processedMessages ∧
    (setProposal v s).startTime = s.startTime := ⟨rfl, rfl⟩

/-- prepare never touches the processed-messages filter. -/
lemma prepare_processed (a : List String) (n : Nat) (s : ProposerState) :
    (prepare a n s).1.processedMessages = s.processedMessages := by
  unfold prepare; split_ifs <;> rfl

/-- prepare keeps an already-set start time. -/
lemma prepare_startTime_some (a : List String) (n : Nat) (s : ProposerState)
    (t : Nat) (h : s.startTime = some t) : (prepare a n s).1.startTime = some t := by
  unfold prepare; split_ifs <;> simp [h]

/-- send_accept never touches the processed-messages filter. -/
lemma sendAccept_processed (a : List String) (n : Nat) (id : ProposalID)
    (v : Option Val) (s : ProposerState) :
    (sendAccept a n id v s).1.processedMessages = s.processedMessages := by
  unfold sendAccept; split_ifs <;> rfl

/-- send_accept never touches the start time. -/
lemma sendAccept_startTime (a : List String) (n : Nat) (id : ProposalID)
    (v : Option Val) (s : ProposerState) :
    (sendAccept a n id v s).1.startTime = s.startTime := by
  unfold sendAccept; split_ifs <;> rfl

/-- The base-class update in handle_promise changes only `lastAcceptedId` and
`proposedValue`. -/
lemma updateLastAccepted_frame (msg : NetworkMessage) (s : ProposerState) :
    (updateLastAccepted msg s).processedMessages = s.processedMessages ∧
    (updateLastAccepted msg s).startTime = s.startTime ∧
    (updateLastAccepted msg s).quorumSize = s.quorumSize ∧
    (updateLastAccepted msg s).quorumReached = s.quorumReached ∧
    (updateLastAccepted msg s).promisesRcvd = s.promisesRcvd ∧
    (updateLastAccepted msg s).proposalValue = s.proposalValue ∧
    (updateLastAccepted msg s).pendingPromises = s.pendingPromises ∧
    (updateLastAccepted msg s).pendingAccepts = s.pendingAccepts ∧
    (updateLastAccepted msg s).running = s.running ∧
    (updateLastAccepted msg s).nodeId = s.nodeId ∧
    (updateLastAccepted msg s).currentPhase = s.currentPhase := by
  unfold updateLastAccepted
  split
  · simp
  · split_ifs
    · split <;> simp
    · simp

/-- handle_promise never touches the processed-messages filter. -/
lemma handlePromise_processed (a : List String) (n : Nat) (msg : NetworkMessage)
    (s : ProposerState) :
    (handlePromise a n msg s).1.processedMessages = s.processedMessages := by
  unfold handlePromise
  split
  · split_ifs <;>
      simp [apply_ite, sendAccept_processed, (updateLastAccepted_frame _ _).1]
  · rfl

/-- handle_promise never touches the start time. -/
lemma handlePromise_startTime (a : List String) (n : Nat) (msg : NetworkMessage)
    (s : ProposerState) :
    (handlePromise a n msg s).1.startTime = s.startTime := by
  unfold handlePromise
  split
  · split_ifs <;>
      simp [apply_ite, sendAccept_startTime, (updateLastAccepted_frame _ _).2.1]
  · rfl

/-- handle_accepted never touches the processed-messages filter. -/
lemma handleAccepted_processed (n : Nat) (msg : NetworkMessage) (s : ProposerState) :
    (handleAccepted n msg s).1.processedMessages = s.processedMessages := by
  cases hc : s.consensusTime <;>
    (unfold handleAccepted
     split
     · split_ifs <;> simp [apply_ite, hc]
     · rfl)

/-- handle_accepted never touches the start time. -/
lemma handleAccepted_startTime (n : Nat) (msg : NetworkMessage) (s : ProposerState) :
    (handleAccepted n msg s).1.startTime = s.startTime := by
  cases hc : s.consensusTime <;>
    (unfold handleAccepted
     split
     · split_ifs <;> simp [apply_ite, hc]
     · rfl)

/-- The promise-timeout handler never touches the processed-messages filter. -/
lemma checkPromiseTimeout_processed (a : List String) (n : Nat) (id : ProposalID)
    (s : ProposerState) :
    (checkPromiseTimeout a n id s).1.processedMessages = s.processedMessages := by
  unfold checkPromiseTimeout
  split
  · rfl
  · simp [apply_ite, prepare_processed]

/-- The promise-timeout handler keeps an already-set start time. -/
lemma checkPromiseTimeout_startTime_some (a : List String) (n : Nat) (id : ProposalID)
    (s : ProposerState) (t : Nat) (h : s.startTime = some t) :
    (checkPromiseTimeout a n id s).1.startTime = some t := by
  unfold checkPromiseTimeout
  split
  · exact h
  · simp [apply_ite, prepare_startTime_some, h]

/-- The accept-timeout handler never touches the processed-messages filter. -/
lemma checkAcceptTimeout_processed (a : List String) (n : Nat) (id : ProposalID)
    (s : ProposerState) :
    (checkAcceptTimeout a n id s).1.processedMessages = s.processedMessages := by
  unfold checkAcceptTimeout
  split
  · rfl
  · simp [apply_ite, prepare_processed, sendAccept_processed]

/-- The accept-timeout handler keeps an already-set start time. -/
lemma checkAcceptTimeout_startTime_some (a : List String) (n : Nat) (id : ProposalID)
    (s : ProposerState) (t : Nat) (h : s.startTime = some t) :
    (checkAcceptTimeout a n id s).1.startTime = some t := by
  unfold checkAcceptTimeout
  split
  · exact h
  · simp [apply_ite, prepare_startTime_some, sendAccept_startTime, h]

/-- One processing-loop iteration either leaves the filter unchanged (skip) or
appends exactly the new message's key. -/
lemma processMessage_processed (a : List String) (n : Nat) (m : NetworkMessage)
    (s : ProposerState) :
    (processMessage a n m s).1.processedMessages =
      if msgKey m ∈ s.processedMessages then s.processedMessages
      else s.processedMessages ++ [msgKey m] := by
  unfold processMessage
  split_ifs <;> simp [handlePromise_processed, handleAccepted_processed]

/-- A message whose key was already processed is skipped with no state change
and no effects. -/
lemma processMessage_skip (a : List String) (n : Nat) (m : NetworkMessage)
    (s : ProposerState) (h : msgKey m ∈ s.processedMessages) :
    processMessage a n m s = (s, noEff, true) := by
  unfold processMessage
  simp [h]

/-- A fresh message is not skipped. -/
lemma processMessage_fresh (a : List String) (n : Nat) (m : NetworkMessage)
    (s : ProposerState) (h : msgKey m ∉ s.processedMessages) :
    (processMessage a n m s).2.2 = false := by
  unfold processMessage
  split_ifs <;> simp_all

/-- The processing loop never touches the start time. -/
lemma processMessage_startTime (a : List String) (n : Nat) (m : NetworkMessage)
    (s : ProposerState) :
    (processMessage a n m s).1.startTime = s.startTime := by
  unfold processMessage
  split_ifs <;> simp [handlePromise_startTime, handleAccepted_startTime]

/-! ## Concrete proposer runs -/

/-- Acceptor ids used in the concrete proposer runs. -/
def traceAcceptors : List String := ["A0", "A1", "A2"]

/-- Trace of a proposer (quorum 2) whose prepare phase times out four times in
a row without receiving a single promise: initial prepare at time 0 mints id
(2, P0); the promise timers for ids (2, P0), (4, P0), (6, P0), (8, P0) then
fire in turn, each re-entering prepare with a fresh id. -/
def c4Trace : List PEvent :=
  [.callPrepare 0, .promiseTimeout 4 ⟨2, "P0"⟩, .promiseTimeout 8 ⟨4, "P0"⟩,
   .promiseTimeout 12 ⟨6, "P0"⟩, .promiseTimeout 16 ⟨8, "P0"⟩]

/-- Proposer state after `c4Trace`. -/
def c4Final : ProposerState := runTrace traceAcceptors c4Trace (initProposer "P0" 2)

/-- Claim C4 (code bug): after four successive prepare timeouts the proposer
is still preparing (fifth round, id (10, P0)) instead of having given up after
`MAX_PHASE_RETRIES = 3` retries: the retry counter lives in the per-proposal
tally, every retry mints a fresh proposal id whose tally starts at retry count
0, so every tally's counter stops at 1 and the give-up branch is unreachable. -/
theorem C4_prepare_never_gives_up :
    c4Final.currentPhase = some Phase.prepare ∧
    c4Final.rounds = 5 ∧
    c4Final.proposalId = some ⟨10, "P0"⟩ ∧
    c4Final.pendingPromises.map (fun p => p.2.retryCount) = [1, 1, 1, 1, 0] := by
  decide

/-- Promise from the given acceptor for proposal (2, P0), carrying no prior
accepted pair. -/
def c3Promise (acc : String) : NetworkMessage :=
  ⟨"promise", acc, "P0", ⟨2, "P0"⟩, none, none, false⟩

/-- Drive a proposer (quorum 2) into the accept phase for id (2, P0) with
value "v", then let the accept timer fire three times with no accepted
replies. -/
def c3Trace : List PEvent :=
  [.callSetProposal "v", .callPrepare 0, .deliver 1 (c3Promise "A0"),
   .deliver 2 (c3Promise "A1"), .acceptTimeout 6 ⟨2, "P0"⟩,
   .acceptTimeout 10 ⟨2, "P0"⟩, .acceptTimeout 14 ⟨2, "P0"⟩]

/-- Proposer state after `c3Trace`. -/
def c3Pre : ProposerState := runTrace traceAcceptors c3Trace (initProposer "P0" 2)

/-- Claim C3 (code bug): every accept re-send re-creates the pending-accepts
tally with retry count 0, so after three accept timeouts the counter is back
at 0, and a fourth timeout still re-sends `accept` with the same id and value
instead of abandoning the accept phase: the phase stays `accept`, the proposal
number stays 2 (prepare is never restarted), and the cap branch is
unreachable. -/
theorem C3_accept_retry_cap_unreachable :
    (alistLookup c3Pre.pendingAccepts ⟨2, "P0"⟩).map AccTally.retryCount = some 0 ∧
    (step traceAcceptors (.acceptTimeout 18 ⟨2, "P0"⟩) c3Pre).1.currentPhase =
      some Phase.accept ∧
    (step traceAcceptors (.acceptTimeout 18 ⟨2, "P0"⟩) c3Pre).1.nextProposalNumber = 2 ∧
    (step traceAcceptors (.acceptTimeout 18 ⟨2, "P0"⟩) c3Pre).2.sent =
      traceAcceptors.map (fun a =>
        (⟨"accept", "P0", a, ⟨2, "P0"⟩, none, some "v", false⟩ : NetworkMessage)) ∧
    (alistLookup (step traceAcceptors (.acceptTimeout 18 ⟨2, "P0"⟩) c3Pre).1.pendingAccepts
        ⟨2, "P0"⟩).map AccTally.retryCount = some 0 := by
  decide

/-- Proposer state (quorum 2) after its first prepare (id (2, P0)) timed out
and it re-entered prepare with id (4, P0): the stale tally for (2, P0) is
still in `pending_promises`. -/
def c2Pre : ProposerState :=
  runTrace traceAcceptors [.callPrepare 0, .promiseTimeout 4 ⟨2, "P0"⟩]
    (initProposer "P0" 2)

/-- Promise from the given acceptor for the stale proposal (2, P0). -/
def c2Stale (acc : String) : NetworkMessage :=
  ⟨"promise", acc, "P0", ⟨2, "P0"⟩, none, none, false⟩

/-- Claim C2 counterexample: with the current proposal id (4, P0), a promise
for the stale id (2, P0) is nonetheless counted (its tally's count rises to
1), because the handler only requires the id to have a pending-promise tally,
not to equal the current id; and a second stale promise then reaches quorum
and sends `accept` for the stale id (2, P0), not for the current one. -/
theorem C2_stale_round_counterexample :
    c2Pre.currentPhase = some Phase.prepare ∧
    c2Pre.proposalId = some ⟨4, "P0"⟩ ∧
    (alistLookup (handlePromise traceAcceptors 5 (c2Stale "A0") c2Pre).1.pendingPromises
        ⟨2, "P0"⟩).map PromTally.count = some 1 ∧
    (handlePromise traceAcceptors 6 (c2Stale "A1")
        (handlePromise traceAcceptors 5 (c2Stale "A0") c2Pre).1).1.quorumReached = true ∧
    (handlePromise traceAcceptors 6 (c2Stale "A1")
        (handlePromise traceAcceptors 5 (c2Stale "A0") c2Pre).1).2.sent =
      traceAcceptors.map (fun a =>
        (⟨"accept", "P0", a, ⟨2, "P0"⟩, none, none, false⟩ : NetworkMessage)) := by
  decide

/-- A crashed proposer (run flag cleared) that had reached promise quorum. -/
def c7St : ProposerState :=
  ⟨"P0", 2, false, 2, [], [], none, some "v", [], true, some ⟨2, "P0"⟩, none,
   some 0, 1, ["A0", "A1"], none, none⟩

/-- send_accept is a no-op when quorum has not been reached. -/
lemma sendAccept_noQuorum (a : List String) (n : Nat) (id : ProposalID)
    (v : Option Val) (s : ProposerState) (hq : s.quorumReached = false) :
    sendAccept a n id v s = (s, noEff) := by
  unfold sendAccept; split_ifs <;> simp_all

/-- send_accept is a no-op when the node's run flag is cleared. -/
lemma sendAccept_notRunning (a : List String) (n : Nat) (id : ProposalID)
    (v : Option Val) (s : ProposerState) (hr : s.running = false) :
    sendAccept a n id v s = (s, noEff) := by
  unfold sendAccept
  simp [hr]

/-- send_accept on a running proposer with quorum reached: enter the accept
phase, send `accept(id, value)` to every acceptor, re-create the tally for
`id` and arm the accept timer. -/
lemma sendAccept_spec (a : List String) (n : Nat) (id : ProposalID)
    (v : Option Val) (s : ProposerState) (hr : s.running = true)
    (hq : s.quorumReached = true) :
    sendAccept a n id v s =
      ({ s with currentPhase := some Phase.accept,
                pendingAccepts := alistSet s.pendingAccepts id ⟨0, n, [], v, 0⟩ },
       ⟨a.map (fun x => (⟨"accept", s.nodeId, x, id, none, v, false⟩ : NetworkMessage)),
        [TimerKind.acceptTimer id]⟩) := by
  unfold sendAccept; simp [hr, hq]

/-- Claim C7 counterexample: `send_accept` on a proposer whose run flag is
cleared does nothing even though `quorum_reached` is true — no accept
messages, no phase change — so the claim's second half does not hold for
every call. -/
theorem C7_crashed_counterexample :
    c7St.quorumReached = true ∧
    sendAccept traceAcceptors 9 ⟨2, "P0"⟩ (some "v") c7St = (c7St, noEff) := by
  decide

/-- Claim C7 (amended): `send_accept` with `quorum_reached` false sends
nothing and leaves the state unchanged; on a running proposer with
`quorum_reached` true it sets the phase to accept, sends `accept(id, value)`
to every registered acceptor, resets the received-accepteds tally for that
proposal id and arms a phase timer; a proposer whose run flag is cleared also
does nothing. -/
theorem C7_send_accept :
    ∀ (acceptors : List String) (now : Nat) (id : ProposalID) (v : Option Val)
      (s : ProposerState),
      (s.quorumReached = false → sendAccept acceptors now id v s = (s, noEff)) ∧
      (s.running = false → sendAccept acceptors now id v s = (s, noEff)) ∧
      (s.running = true → s.quorumReached = true →
        (sendAccept acceptors now id v s).1.currentPhase = some Phase.accept ∧
        (sendAccept acceptors now id v s).2.sent =
          acceptors.map (fun a =>
            (⟨"accept", s.nodeId, a, id, none, v, false⟩ : NetworkMessage)) ∧
        alistLookup (sendAccept acceptors now id v s).1.pendingAccepts id =
          some ⟨0, now, [], v, 0⟩ ∧
        (sendAccept acceptors now id v s).2.timers = [TimerKind.acceptTimer id]) := by
  intro acceptors now id v s
  refine ⟨fun hq => sendAccept_noQuorum _ _ _ _ _ hq,
          fun hr => sendAccept_notRunning _ _ _ _ _ hr, fun hr hq => ?_⟩
  rw [sendAccept_spec acceptors now id v s hr hq]
  exact ⟨rfl, rfl, alistLookup_alistSet_self _ _ _, rfl⟩

/-- A running proposer that has reached promise quorum. -/
def c7wSt : ProposerState :=
  ⟨"P0", 2, true, 2, [], [], some Phase.prepare, some "v", [], true,
   some ⟨2, "P0"⟩, none, some 0, 1, ["A0", "A1"], none, none⟩

/-- Witness for C7_send_accept: on `c7wSt` the call enters the accept phase
and resets the tally for (2, P0). -/
theorem C7_send_accept_witness :
    (sendAccept traceAcceptors 9 ⟨2, "P0"⟩ (some "v") c7wSt).1.currentPhase =
      some Phase.accept ∧
    alistLookup (sendAccept traceAcceptors 9 ⟨2, "P0"⟩ (some "v") c7wSt).1.pendingAccepts
      ⟨2, "P0"⟩ = some ⟨0, 9, [], some "v", 0⟩ := by
  have h := (C7_send_accept traceAcceptors 9 ⟨2, "P0"⟩ (some "v") c7wSt).2.2 rfl rfl
  exact ⟨h.1, h.2.2.1⟩

/-- Claim C10: `start_time` is assigned by `prepare()` only when it is still
unset; any later `prepare()` — and in fact any event at all — leaves a
once-set `start_time` unchanged, so the latency `consensus_time − start_time`
spans from the very first prepare across all rounds. -/
theorem C10_start_time_first_prepare :
    (∀ (acceptors : List String) (now : Nat) (s : ProposerState),
      s.running = true → s.startTime = none →
      (prepare acceptors now s).1.startTime = some now) ∧
    (∀ (acceptors : List String) (now : Nat) (s : ProposerState) (t : Nat),
      s.startTime = some t → (prepare acceptors now s).1.startTime = some t) ∧
    (∀ (acceptors : List String) (e : PEvent) (s : ProposerState) (t : Nat),
      s.startTime = some t → (step acceptors e s).1.startTime = some t) := by
  refine ⟨?_, ?_, ?_⟩
  · intro a now s hr h
    unfold prepare
    simp [hr, h]
  · intro a now s t h
    exact prepare_startTime_some a now s t h
  · intro a e s t h
    cases e with
    | deliver now msg =>
        unfold step
        split_ifs <;> simp [processMessage_startTime, h]
    | promiseTimeout now id => exact checkPromiseTimeout_startTime_some _ _ _ _ _ h
    | acceptTimeout now id => exact checkAcceptTimeout_startTime_some _ _ _ _ _ h
    | callPrepare now => exact prepare_startTime_some _ _ _ _ h
    | callSetProposal v => exact h

/-- Proposer state right after its first prepare, issued at time 5. -/
def c10St : ProposerState := (prepare traceAcceptors 5 (initProposer "P0" 2)).1

/-- Witness for C10_start_time_first_prepare: the first prepare at time 5 sets
`start_time := 5`; a re-escalating prepare at time 9 and a promise timeout
both leave it at 5. -/
theorem C10_start_time_witness :
    (prepare traceAcceptors 5 (initProposer "P0" 2)).1.startTime = some 5 ∧
    (prepare traceAcceptors 9 c10St).1.startTime = some 5 ∧
    (step traceAcceptors (.promiseTimeout 9 ⟨2, "P0"⟩) c10St).1.startTime = some 5 := by
  refine ⟨?_, ?_, ?_⟩
  · exact C10_start_time_first_prepare.1 traceAcceptors 5 (initProposer "P0" 2) rfl rfl
  · exact C10_start_time_first_prepare.2.1 traceAcceptors 9 c10St 5 (by decide)
  · exact C10_start_time_first_prepare.2.2 traceAcceptors _ c10St 5 (by decide)

/-- Claim C9: the proposer's duplicate filter is keyed on
(sender, message-kind, proposal-id) and is never cleared: a message whose key
was already processed is skipped with no state change; no event ever removes a
key from the filter; and over any inbound message list, the keys actually
dispatched are pairwise distinct and none of them was processed before. -/
theorem C9_duplicate_filter :
    (∀ (acceptors : List String) (now : Nat) (m : NetworkMessage) (s : ProposerState),
      msgKey m ∈ s.processedMessages →
      processMessage acceptors now m s = (s, noEff, true)) ∧
    (∀ (acceptors : List String) (e : PEvent) (s : ProposerState) (k : MsgKey),
      k ∈ s.processedMessages → k ∈ (step acceptors e s).1.processedMessages) ∧
    (∀ (acceptors : List String) (ms : List (Nat × NetworkMessage)) (s : ProposerState),
      (processList acceptors ms s).2.Nodup ∧
      ∀ k ∈ (processList acceptors ms s).2, k ∉ s.processedMessages) := by
  refine ⟨fun a now m s h => processMessage_skip a now m s h, ?_, ?_⟩
  · intro a e s k hk
    cases e with
    | deliver now msg =>
        unfold step
        split_ifs
        · rw [processMessage_processed]
          split_ifs
          · exact hk
          · exact List.mem_append_left _ hk
        · exact hk
    | promiseTimeout now id =>
        unfold step; rw [checkPromiseTimeout_processed]; exact hk
    | acceptTimeout now id =>
        unfold step; rw [checkAcceptTimeout_processed]; exact hk
    | callPrepare now =>
        unfold step; rw [prepare_processed]; exact hk
    | callSetProposal v => exact hk
  · intro a ms s
    induction ms generalizing s with
    | nil => exact ⟨List.nodup_nil, by simp [processList]⟩
    | cons p rest ih =>
        obtain ⟨now, m⟩ := p
        by_cases h : msgKey m ∈ s.processedMessages
        · have hskip := processMessage_skip a now m s h
          simp only [processList, hskip]
          exact ih s
        · have hfresh := processMessage_fresh a now m s h
          have hproc := processMessage_processed a now m s
          simp only [processList, hfresh, Bool.false_eq_true, if_false]
          have hmem' : msgKey m ∈ (processMessage a now m s).1.processedMessages := by
            rw [hproc, if_neg h]; simp
          have hsub : ∀ k, k ∈ s.processedMessages →
              k ∈ (processMessage a now m s).1.processedMessages := by
            intro k hk
            rw [hproc, if_neg h]
            exact List.mem_append_left _ hk
          obtain ⟨hnd, hfreshKeys⟩ := ih (processMessage a now m s).1
          constructor
          · refine List.nodup_cons.mpr ⟨?_, hnd⟩
            intro hmm
            exact (hfreshKeys _ hmm) hmem'
          · intro k hk
            rcases List.mem_cons.mp hk with hk | hk
            · subst hk; exact h
            · intro hks
              exact (hfreshKeys k hk) (hsub k hks)

/-- A promise message whose key is already in `c9St`'s filter. -/
def c9Msg : NetworkMessage := ⟨"promise", "A0", "P0", ⟨2, "P0"⟩, none, none, false⟩

/-- A proposer that has already processed `c9Msg`'s key. -/
def c9St : ProposerState :=
  ⟨"P0", 2, true, 2, [], [], none, none, [msgKey c9Msg], false, none, none,
   none, 0, [], none, none⟩

/-- Witness for C9_duplicate_filter: re-delivering `c9Msg` to `c9St` is
skipped with no state change, and a prepare call keeps the key in the filter. -/
theorem C9_duplicate_filter_witness :
    processMessage traceAcceptors 3 c9Msg c9St = (c9St, noEff, true) ∧
    msgKey c9Msg ∈ (step traceAcceptors (.callPrepare 4) c9St).1.processedMessages := by
  exact ⟨C9_duplicate_filter.1 traceAcceptors 3 c9Msg c9St (by decide),
         C9_duplicate_filter.2.1 traceAcceptors (.callPrepare 4) c9St (msgKey c9Msg)
           (by decide)⟩

/-- Claim C2 (amended): a promise is counted only if the proposer's phase is
prepare, its proposal id has a pending-promise tally (the current id or a
stale id from a timed-out round — not necessarily the current id), and the
sender is not already in that tally; when counted on a running proposer, the
tally grows by that sender, and if the distinct promising acceptors reach
`quorum_size` with `quorum_reached` not yet set, the proposer sets
`quorum_reached` and sends `accept` for the triggering message's proposal id,
carrying the tally's highest-id prior accepted value if any, else its own
proposed value. -/
theorem C2_promise_handling :
    ∀ (acceptors : List String) (now : Nat) (msg : NetworkMessage) (s : ProposerState),
      (s.currentPhase ≠ some Phase.prepare →
        handlePromise acceptors now msg s = (s, noEff)) ∧
      (alistLookup s.pendingPromises msg.proposalId = none →
        handlePromise acceptors now msg s = (s, noEff)) ∧
      (∀ t, alistLookup s.pendingPromises msg.proposalId = some t →
        msg.sender ∈ t.received →
        handlePromise acceptors now msg s = (s, noEff)) ∧
      (∀ t, s.currentPhase = some Phase.prepare →
        alistLookup s.pendingPromises msg.proposalId = some t →
        msg.sender ∉ t.received → s.running = true →
        (¬ (s.quorumSize ≤ (setAdd s.promisesRcvd msg.sender).length ∧
            s.quorumReached = false) →
          (handlePromise acceptors now msg s).2 = noEff ∧
          (handlePromise acceptors now msg s).1.quorumReached = s.quorumReached ∧
          (handlePromise acceptors now msg s).1.currentPhase = some Phase.prepare ∧
          alistLookup (handlePromise acceptors now msg s).1.pendingPromises
              msg.proposalId =
            some ⟨t.count + 1, t.startTime, setAdd t.received msg.sender,
                  trackPrior t.value msg, t.retryCount⟩) ∧
        ((s.quorumSize ≤ (setAdd s.promisesRcvd msg.sender).length ∧
            s.quorumReached = false) →
          (handlePromise acceptors now msg s).1.quorumReached = true ∧
          (handlePromise acceptors now msg s).1.currentPhase = some Phase.accept ∧
          (handlePromise acceptors now msg s).2.sent =
            acceptors.map (fun a =>
              (⟨"accept", s.nodeId, a, msg.proposalId, none,
                (match trackPrior t.value msg with
                 | some pv => some pv.2
                 | none => s.proposalValue), false⟩ : NetworkMessage)) ∧
          alistLookup (handlePromise acceptors now msg s).1.pendingPromises
              msg.proposalId = none)) := by
  intro acceptors now msg s
  have hQSF : ∀ s' : ProposerState,
      (updateLastAccepted msg s').quorumSize = s'.quorumSize :=
    fun s' => (updateLastAccepted_frame msg s').2.2.1
  have hQRF : ∀ s' : ProposerState,
      (updateLastAccepted msg s').quorumReached = s'.quorumReached :=
    fun s' => (updateLastAccepted_frame msg s').2.2.2.1
  have hPRF : ∀ s' : ProposerState,
      (updateLastAccepted msg s').promisesRcvd = s'.promisesRcvd :=
    fun s' => (updateLastAccepted_frame msg s').2.2.2.2.1
  have hPVF : ∀ s' : ProposerState,
      (updateLastAccepted msg s').proposalValue = s'.proposalValue :=
    fun s' => (updateLastAccepted_frame msg s').2.2.2.2.2.1
  have hPPF : ∀ s' : ProposerState,
      (updateLastAccepted msg s').pendingPromises = s'.pendingPromises :=
    fun s' => (updateLastAccepted_frame msg s').2.2.2.2.2.2.1
  have hRunF : ∀ s' : ProposerState,
      (updateLastAccepted msg s').running = s'.running :=
    fun s' => (updateLastAccepted_frame msg s').2.2.2.2.2.2.2.2.1
  have hNodeF : ∀ s' : ProposerState,
      (updateLastAccepted msg s').nodeId = s'.nodeId :=
    fun s' => (updateLastAccepted_frame msg s').2.2.2.2.2.2.2.2.2.1
  have hPhF : ∀ s' : ProposerState,
      (updateLastAccepted msg s').currentPhase = s'.currentPhase :=
    fun s' => (updateLastAccepted_frame msg s').2.2.2.2.2.2.2.2.2.2
  refine ⟨?_, ?_, ?_, ?_⟩
  · intro h
    unfold handlePromise
    cases hl : alistLookup s.pendingPromises msg.proposalId with
    | none =>
        cases hp : s.currentPhase with
        | none => rfl
        | some ph => cases ph <;> rfl
    | some tally =>
        cases hp : s.currentPhase with
        | none => rfl
        | some ph =>
            cases ph with
            | prepare => exact absurd hp h
            | accept => rfl
  · intro h
    unfold handlePromise
    rw [h]
  · intro t hl hmem
    unfold handlePromise
    rw [hl]
    cases hp : s.currentPhase with
    | none => rfl
    | some ph =>
        cases ph with
        | prepare => simp [hmem]
        | accept => rfl
  · intro t hphase hl hmem hrun
    constructor
    · intro hnq
      refine ⟨?_, ?_, ?_, ?_⟩ <;>
        simp [handlePromise, hl, hphase, hmem, hnq, hQSF, hQRF, hPRF, hPVF, hPPF,
              hRunF, hNodeF, hPhF, alistLookup_alistSet_self]
    · intro hq
      refine ⟨?_, ?_, ?_, ?_⟩ <;>
        simp [handlePromise, sendAccept, hl, hphase, hmem, hrun, hq, hQSF, hQRF,
              hPRF, hPVF, hPPF, hRunF, hNodeF, hPhF, alistLookup_alistSet_self,
              alistLookup_alistErase_self]

/-- A running proposer in prepare phase with quorum size 1 and a fresh tally
for its current proposal (2, P0). -/
def c2wSt : ProposerState :=
  ⟨"P0", 1, true, 2, [(⟨2, "P0"⟩, ⟨0, 0, [], none, 0⟩)], [], some Phase.prepare,
   some "v", [], false, some ⟨2, "P0"⟩, none, some 0, 1, [], none, none⟩

/-- A promise from A0 for proposal (2, P0). -/
def c2wMsg : NetworkMessage := ⟨"promise", "A0", "P0", ⟨2, "P0"⟩, none, none, false⟩

/-- Witness for C2_promise_handling: on `c2wSt` the promise from A0 reaches
quorum, marking `quorum_reached` and moving to the accept phase. -/
theorem C2_promise_handling_witness :
    (handlePromise ["A0"] 3 c2wMsg c2wSt).1.quorumReached = true ∧
    (handlePromise ["A0"] 3 c2wMsg c2wSt).1.currentPhase = some Phase.accept := by
  have h := ((C2_promise_handling ["A0"] 3 c2wMsg c2wSt).2.2.2 ⟨0, 0, [], none, 0⟩
      rfl (by decide) (by decide) rfl).2 (by decide)
  exact ⟨h.1, h.2.1⟩

/-! ## Driver (`simulate_paxos`) -/

/-- Final observation the driver reads when it stops: the first proposer's
consensus and start times, its round counter, and the network's counters. -/
structure DriverObs where
  consensusTime : Option Nat
  startTime : Option Nat
  rounds : Nat
  totalRetries : Nat
  messageCount : Nat
  droppedMessages : Nat
deriving DecidableEq

/-- Continuation condition of the driver's wait loop:
`while proposers[0].consensus_time is None and (time.time() - start_time) < timeout_limit`
with `timeout_limit = 30.0`. -/
def waitLoopContinues (consensusTime : Option Nat) (elapsed : Rat) : Bool :=
  decide (consensusTime = none) && decide (elapsed < 30)

/-- The driver's return value
`timeout_limit, consensus_before, consensus_time, rounds, network.total_retries`:
the constant 30-second limit, whether consensus was observed, the latency
`consensus_time - start_time` when decided (the driver always sets
`start_time` before `prepare`), the round count and the network's total retry
counter. -/
def simulateReturn (f : DriverObs) : Rat × Bool × Option Int × Nat × Nat :=
  (30, decide (f.consensusTime ≠ none),
   (match f.consensusTime, f.startTime with
    | some c, some s => some ((c : Int) - (s : Int))
    | some _, none => none
    | none, _ => none),
   f.rounds, f.totalRetries)

/-- A run that decided at time 12 having sent 40 messages. -/
def c8Decided : DriverObs := ⟨some 12, some 2, 1, 0, 40, 0⟩

/-- The same decided run but with different network counters. -/
def c8ManyMsgs : DriverObs := ⟨some 12, some 2, 1, 0, 999, 123⟩

/-- A run that never decided (timed out). -/
def c8TimedOut : DriverObs := ⟨none, some 2, 5, 7, 40, 0⟩

/-- Claim C8 counterexample: the returned tuple is identical for two final
states that differ in the messages-sent and messages-dropped counters, so the
metrics do not include those counts; and its first component is the constant
30.0 both for a decided run and for a timed-out run, so no timed-out status is
returned either. -/
theorem C8_metrics_counterexample :
    simulateReturn c8Decided = simulateReturn c8ManyMsgs ∧
    c8Decided.messageCount ≠ c8ManyMsgs.messageCount ∧
    c8Decided.droppedMessages ≠ c8ManyMsgs.droppedMessages ∧
    (simulateReturn c8Decided).1 = 30 ∧
    (simulateReturn c8TimedOut).1 = 30 := by
  refine ⟨rfl, by decide, by decide, rfl, rfl⟩

/-- Claim C8 (amended): the driver's wait loop exits exactly when a decision
is observed or 30 seconds have elapsed; it then stops the network (clearing
its running flag and pending tokens) and returns the constant timeout limit,
the decided flag, the latency, the round count and the total retry count —
the returned tuple is fully determined by those observations and carries
neither the messages-sent nor the messages-dropped counter, nor a timed-out
flag. -/
theorem C8_driver_return :
    (∀ (c : Option Nat) (elapsed : Rat),
      waitLoopContinues c elapsed = false ↔ (c ≠ none ∨ 30 ≤ elapsed)) ∧
    (∀ f : DriverObs,
      (simulateReturn f).1 = 30 ∧
      (simulateReturn f).2.1 = decide (f.consensusTime ≠ none) ∧
      (simulateReturn f).2.2.2.1 = f.rounds ∧
      (simulateReturn f).2.2.2.2 = f.totalRetries) ∧
    (∀ f g : DriverObs, f.consensusTime = g.consensusTime →
      f.startTime = g.startTime → f.rounds = g.rounds →
      f.totalRetries = g.totalRetries → simulateReturn f = simulateReturn g) ∧
    (∀ st : NetState, (netStop st).running = false ∧
      (netStop st).activeMessages = []) := by
  refine ⟨?_, fun f => ⟨rfl, rfl, rfl, rfl⟩, ?_, fun st => ⟨rfl, rfl⟩⟩
  · intro c elapsed
    simp only [waitLoopContinues, Bool.and_eq_false_iff, decide_eq_false_iff_not,
               not_lt]
  · intro f g h1 h2 h3 h4
    unfold simulateReturn
    rw [h1, h2, h3, h4]

/-- Witness for C8_driver_return: two decided runs differing only in network
counters return the same tuple, and the wait loop stops once consensus is
observed. -/
theorem C8_driver_return_witness :
    simulateReturn ⟨some 12, some 2, 1, 0, 40, 0⟩ =
      simulateReturn ⟨some 12, some 2, 1, 0, 7, 3⟩ ∧
    waitLoopContinues (some 12) 1 = false := by
  constructor
  · exact C8_driver_return.2.2.1 _ _ rfl rfl rfl rfl
  · exact (C8_driver_return.1 (some 12) 1).mpr (Or.inl (by decide))

end Paxos
